import Mathlib

/-!
Verification of `src/test-server.py`, a single-file diagnostic HTTP server.

The embedding below translates the module-level configuration (line 12), the
`TestHandler` request handler methods (`log_message` lines 15-16, `do_OPTIONS`
lines 18-23, `do_GET` lines 25-98), and the startup sequencing of the
`__main__` block (lines 100-116) into pure Lean definitions.  Wall-clock readings (`datetime.now().isoformat()`) are passed in
as explicit string parameters, since the handler only ever embeds the formatted
timestamp into text.
-/

/-- Runtime error raised by the Python built-in `int()` on a non-numeric
string (a `ValueError`). -/
inductive PyError where
  | valueError : PyError
deriving DecidableEq

/-- An inbound HTTP request as seen by the handler: the raw request path
(`self.path`) and the HTTP method (`self.command`). -/
structure Request where
  path : String
  command : String
deriving DecidableEq

/-- An HTTP response produced by a handler: status code, the headers the
handler itself emits, and the body it writes. -/
structure Response where
  status : Nat
  headers : List (String × String)
  body : String
deriving DecidableEq

/-- Characters stripped by Python `int()` before parsing (ASCII whitespace,
as stripped from both ends of the argument). -/
def isPySpace (c : Char) : Bool :=
  c == ' ' || c == '\t' || c == '\n' || c == '\x0b' || c == '\x0c' || c == '\r'

/-- Numeric value of a decimal digit character. -/
def digitVal (c : Char) : Nat := c.toNat - '0'.toNat

/-- Parses the remaining characters of a base-10 Python integer literal,
accumulating the value; a single underscore may stand between two digits
but not at the end and not doubled. -/
def pyIntDigits (acc : Nat) : List Char → Option Nat
  | [] => some acc
  | ['_'] => none
  | '_' :: c :: rest =>
    if c.isDigit then pyIntDigits (acc * 10 + digitVal c) rest else none
  | c :: rest =>
    if c.isDigit then pyIntDigits (acc * 10 + digitVal c) rest else none

/-- Parses a nonempty digit sequence (the part after the optional sign). -/
def pyIntBody : List Char → Option Nat
  | [] => none
  | c :: rest => if c.isDigit then pyIntDigits (digitVal c) rest else none

/-- Optional leading sign, then a nonempty digit sequence. -/
def pyIntSigned : List Char → Option Int
  | '-' :: rest => (pyIntBody rest).map (fun n => -(n : Int))
  | '+' :: rest => (pyIntBody rest).map (fun n => (n : Int))
  | rest => (pyIntBody rest).map (fun n => (n : Int))

/-- Strips leading and trailing whitespace. -/
def pyStrip (l : List Char) : List Char :=
  ((l.dropWhile isPySpace).reverse.dropWhile isPySpace).reverse

/-- Model of the Python built-in `int(s)` in base 10: optional surrounding
whitespace, optional sign, then decimal digits (with legal underscores).
Returns `none` exactly when `int()` raises `ValueError`. -/
def pyInt (s : String) : Option Int :=
  pyIntSigned (pyStrip s.data)

/-- Line 12 of `src/test-server.py`:
`PORT = int(sys.argv[1]) if len(sys.argv) > 1 else 5173`.
The argument vector starts with the program name; when a second element is
present it is parsed with `int()`, and a parse failure is the uncaught
`ValueError` that ends the process. -/
def PORT : List String → Except PyError Int
  | _ :: a :: _ =>
    match pyInt a with
    | some n => Except.ok n
    | none => Except.error PyError.valueError
  | _ => Except.ok 5173

/-- Observable outcome of process startup.  Module-level evaluation of line 12
happens before the `HTTPServer` socket is created at line 101, so a
`ValueError` ends the process before any bind is attempted. -/
inductive StartResult where
  | parseError : StartResult
  | listening : Int → StartResult
deriving DecidableEq

/-- Startup sequencing of `src/test-server.py`: evaluate `PORT` (line 12)
first; only on success is the server constructed and bound to that port
(line 101). -/
def startServer (argv : List String) : StartResult :=
  match PORT argv with
  | Except.error _ => StartResult.parseError
  | Except.ok p => StartResult.listening p

/-- Lines 18-23: `do_OPTIONS` sends status 204 and exactly three CORS
headers, writes no body, and never looks at the request. -/
def do_OPTIONS (_req : Request) : Response :=
  { status := 204
    headers := [("Access-Control-Allow-Origin", "*"),
                ("Access-Control-Allow-Methods", "GET, POST, PUT, DELETE, OPTIONS"),
                ("Access-Control-Allow-Headers", "Content-Type")]
    body := "" }

/-- Lines 15-16: `log_message` emits the current ISO-8601 timestamp, the
separator, and the percent-formatted library message.  The timestamp and the
already-formatted message are explicit parameters here. -/
def log_message (now formatted : String) : String :=
  now ++ " - " ++ formatted

/-- The text `print` actually writes to standard output for one log call:
the log line followed by a newline. -/
def printedLogLine (now formatted : String) : String :=
  log_message now formatted ++ "\n"

/-- Number of newline characters in a string. -/
def newlineCount (s : String) : Nat := s.data.count '\n'

/-- Lines 31-37 of the f-string: from the opening newline up to the port
interpolation inside the title. -/
def htmlPart1 : String :=
  "\n<!DOCTYPE html>\n<html lang=\"en\">\n<head>\n  <meta charset=\"UTF-8\">\n  <meta name=\"viewport\" content=\"width=device-width, initial-scale=1.0\">\n  <title>Test Server - Port "

/-- Lines 37-67: from after the title interpolation up to the list item that
labels the port. -/
def htmlPart2 : String :=
  "</title>\n  <style>\n    body \x7b\n      font-family: system-ui, -apple-system, sans-serif;\n      max-width: 800px;\n      margin: 50px auto;\n      padding: 20px;\n      background: #f5f5f5;\n    \x7d\n    .container \x7b\n      background: white;\n      padding: 40px;\n      border-radius: 8px;\n      box-shadow: 0 2px 4px rgba(0,0,0,0.1);\n    \x7d\n    h1 \x7b color: #2563eb; \x7d\n    .success \x7b color: #16a34a; font-weight: bold; font-size: 1.2em; \x7d\n    .info \x7b background: #eff6ff; padding: 15px; border-radius: 4px; margin: 20px 0; \x7d\n    code \x7b background: #f1f5f9; padding: 2px 6px; border-radius: 3px; font-family: monospace; \x7d\n    pre \x7b background: #1e293b; color: #e2e8f0; padding: 15px; border-radius: 4px; overflow-x: auto; \x7d\n  </style>\n</head>\n<body>\n  <div class=\"container\">\n    <h1>✅ Test Server Running</h1>\n    <p class=\"success\">Proxy is working correctly!</p>\n    \n    <div class=\"info\">\n      <strong>Server Info:</strong>\n      <ul>\n        <li>"

/-- Line 68 up to the path interpolation. -/
def htmlPart3 : String :=
  "</li>\n        <li>Request URL: <code>"

/-- Line 69 up to the method interpolation. -/
def htmlPart4 : String :=
  "</code></li>\n        <li>Request Method: <code>"

/-- Line 70 up to the timestamp interpolation. -/
def htmlPart5 : String :=
  "</code></li>\n        <li>Time: <code>"

/-- Lines 70-76: up to the port interpolation in the direct URL. -/
def htmlPart6 : String :=
  "</code></li>\n      </ul>\n    </div>\n    \n    <h2>How to Access:</h2>\n    <ul>\n      <li><strong>Direct:</strong> <code>http://localhost:"

/-- Lines 76-77: up to the port interpolation in the proxied URL. -/
def htmlPart7 : String :=
  "/</code></li>\n      <li><strong>Via Proxy:</strong> <code>http://localhost:8000/proxy/"

/-- Lines 77-82: up to the port interpolation in the direct curl command. -/
def htmlPart8 : String :=
  "/</code></li>\n    </ul>\n    \n    <h2>Test Commands:</h2>\n    <pre><code># Direct access\ncurl http://localhost:"

/-- Lines 82-85: up to the port interpolation in the proxied curl command. -/
def htmlPart9 : String :=
  "/\n\n# Via proxy\ncurl http://localhost:8000/proxy/"

/-- Lines 85-96: the remainder of the document, ending with the newline and
eight spaces that precede the closing triple quote. -/
def htmlPart10 : String :=
  "/</code></pre>\n\n    <h2>Next Steps:</h2>\n    <ol>\n      <li>This test server proves the proxy works</li>\n      <li>Start your actual dev server (React, Vite, etc.)</li>\n      <li>Access it via: <code>http://localhost:8000/proxy/[PORT]/</code></li>\n    </ol>\n  </div>\n</body>\n</html>\n        "

/-- Lines 31-96: the interpolated f-string `html`.  The port is interpolated
six times (title, port list item, both URLs, both curl commands); the raw
path, the method and the current timestamp once each.  Integers are rendered
exactly as Python `str()` renders them. -/
def html (port : Int) (path command now : String) : String :=
  htmlPart1 ++ toString port ++ htmlPart2 ++ "Port: <code>" ++ toString port
    ++ "</code>" ++ htmlPart3 ++ path ++ htmlPart4 ++ command ++ htmlPart5
    ++ now ++ htmlPart6 ++ toString port ++ htmlPart7 ++ toString port
    ++ htmlPart8 ++ toString port ++ htmlPart9 ++ toString port ++ htmlPart10

/-- Lines 25-98: `do_GET` sends status 200 with the two headers and writes the
interpolated page as the body, for any request and any clock reading. -/
def do_GET (port : Int) (req : Request) (now : String) : Response :=
  { status := 200
    headers := [("Content-Type", "text/html"),
                ("Access-Control-Allow-Origin", "*")]
    body := html port req.path req.command now }

/-- Names of the methods the `TestHandler` class defines (lines 15, 18, 25). -/
def handlerNames : List String := ["log_message", "do_OPTIONS", "do_GET"]

/-- Modelled from the spec: the default "not implemented" response the
underlying HTTP library produces when the handler class defines no matching
method (section 4.1: "historically HTTP 501").  Only the status code is
specified; headers and body of the fallback are left empty here. -/
def defaultFallback : Response :=
  { status := 501, headers := [], body := "" }

/-- Modelled from the spec: method dispatch of the underlying HTTP library.
A request is routed to the handler method named `do_` followed by the HTTP
method when the class defines one; `TestHandler` defines exactly `do_GET`
(line 25) and `do_OPTIONS` (line 18), and every other method receives the
library fallback. -/
def dispatch (port : Int) (req : Request) (now : String) : Response :=
  if req.command = "GET" then do_GET port req now
  else if req.command = "OPTIONS" then do_OPTIONS req
  else defaultFallback

/-- The string `pat` occurs contiguously somewhere in `s`. -/
def strContains (s pat : String) : Prop :=
  ∃ l r : String, s = l ++ pat ++ r

/-- Boolean check that `pat` begins `hay`. -/
def startsWithB : List Char → List Char → Bool
  | [], _ => true
  | _ :: _, [] => false
  | p :: ps, c :: cs => p == c && startsWithB ps cs

/-- Boolean scan for a contiguous occurrence of `pat` in `hay`. -/
def containsB (pat : List Char) : List Char → Bool
  | [] => startsWithB pat []
  | c :: cs => startsWithB pat (c :: cs) || containsB pat cs

/-- Helper: a pattern list begins any list obtained by appending to it. -/
theorem startsWithB_self_append (pat r : List Char) :
    startsWithB pat (pat ++ r) = true := by
  induction pat with
  | nil => rfl
  | cons p ps ih => simp [startsWithB, ih]

/-- Helper: the scan succeeds when the pattern sits at the front. -/
theorem containsB_append_self (pat r : List Char) :
    containsB pat (pat ++ r) = true := by
  cases pat with
  | nil =>
    cases r with
    | nil => rfl
    | cons c cs => simp [containsB, startsWithB]
  | cons p ps =>
    have h := startsWithB_self_append (p :: ps) r
    simp only [List.cons_append] at h
    simp [containsB, h]

/-- Helper: the scan succeeds on any list that decomposes around the
pattern. -/
theorem containsB_of_decomp (pat : List Char) :
    ∀ l r hay : List Char, hay = l ++ pat ++ r → containsB pat hay = true := by
  intro l
  induction l with
  | nil =>
    intro r hay h
    subst h
    simpa using containsB_append_self pat r
  | cons c cs ih =>
    intro r hay h
    subst h
    have hx := ih r (cs ++ pat ++ r) rfl
    simp only [List.append_assoc] at hx
    simp [containsB, hx]

/-- Helper: a failed scan refutes containment. -/
theorem not_strContains_of_containsB (s pat : String)
    (h : containsB pat.data s.data = false) : ¬ strContains s pat := by
  rintro ⟨l, r, he⟩
  have hd : s.data = l.data ++ pat.data ++ r.data := by
    rw [he]; simp [String.data_append]
  rw [containsB_of_decomp pat.data l.data r.data s.data hd] at h
  exact Bool.noConfusion h

set_option maxRecDepth 100000 in
/-- C1, counterexample: on a concrete GET request with the default port, the
body does NOT contain the literal substring composed of the label, a colon, a
space and the port number, because the markup `<code>` tag stands between the
label and the number (line 67 of the source renders
`<li>Port: <code>5173</code></li>`). -/
theorem do_GET_body_lacks_plain_port_substring :
    ¬ strContains (do_GET 5173 ⟨"/", "GET"⟩ "2025-01-01T12:00:00.000000").body
      "Port: 5173" :=
  not_strContains_of_containsB _ _ (by decide)

/-- C1 (amended): for every GET request, `do_GET` returns status 200 with the
headers `Content-Type: text/html` and `Access-Control-Allow-Origin: *`, and a
body that textually embeds the configured port, the raw request path, the
request method and the supplied wall-clock ISO-8601 timestamp; the port is
embedded after the label as the substring `Port: <code>P</code>` rather than
as the plain substring `Port: P`. -/
theorem do_GET_diagnostic_page (port : Int) (req : Request) (now : String) :
    (do_GET port req now).status = 200 ∧
    ("Content-Type", "text/html") ∈ (do_GET port req now).headers ∧
    ("Access-Control-Allow-Origin", "*") ∈ (do_GET port req now).headers ∧
    strContains (do_GET port req now).body (toString port) ∧
    strContains (do_GET port req now).body req.path ∧
    strContains (do_GET port req now).body req.command ∧
    strContains (do_GET port req now).body now ∧
    strContains (do_GET port req now).body
      ("Port: <code>" ++ toString port ++ "</code>") := by
  refine ⟨rfl, by simp [do_GET], by simp [do_GET], ?_, ?_, ?_, ?_, ?_⟩
  · exact ⟨htmlPart1,
      htmlPart2 ++ "Port: <code>" ++ toString port ++ "</code>" ++ htmlPart3
        ++ req.path ++ htmlPart4 ++ req.command ++ htmlPart5 ++ now
        ++ htmlPart6 ++ toString port ++ htmlPart7 ++ toString port
        ++ htmlPart8 ++ toString port ++ htmlPart9 ++ toString port ++ htmlPart10,
      by simp [do_GET, html, String.append_assoc]⟩
  · exact ⟨htmlPart1 ++ toString port ++ htmlPart2 ++ "Port: <code>"
        ++ toString port ++ "</code>" ++ htmlPart3,
      htmlPart4 ++ req.command ++ htmlPart5 ++ now
        ++ htmlPart6 ++ toString port ++ htmlPart7 ++ toString port
        ++ htmlPart8 ++ toString port ++ htmlPart9 ++ toString port ++ htmlPart10,
      by simp [do_GET, html, String.append_assoc]⟩
  · exact ⟨htmlPart1 ++ toString port ++ htmlPart2 ++ "Port: <code>"
        ++ toString port ++ "</code>" ++ htmlPart3 ++ req.path ++ htmlPart4,
      htmlPart5 ++ now ++ htmlPart6 ++ toString port ++ htmlPart7 ++ toString port
        ++ htmlPart8 ++ toString port ++ htmlPart9 ++ toString port ++ htmlPart10,
      by simp [do_GET, html, String.append_assoc]⟩
  · exact ⟨htmlPart1 ++ toString port ++ htmlPart2 ++ "Port: <code>"
        ++ toString port ++ "</code>" ++ htmlPart3 ++ req.path ++ htmlPart4
        ++ req.command ++ htmlPart5,
      htmlPart6 ++ toString port ++ htmlPart7 ++ toString port
        ++ htmlPart8 ++ toString port ++ htmlPart9 ++ toString port ++ htmlPart10,
      by simp [do_GET, html, String.append_assoc]⟩
  · exact ⟨htmlPart1 ++ toString port ++ htmlPart2,
      htmlPart3 ++ req.path ++ htmlPart4 ++ req.command ++ htmlPart5 ++ now
        ++ htmlPart6 ++ toString port ++ htmlPart7 ++ toString port
        ++ htmlPart8 ++ toString port ++ htmlPart9 ++ toString port ++ htmlPart10,
      by simp [do_GET, html, String.append_assoc]⟩

/-- C2: for every request path, method, port and clock reading, the GET
response body contains the raw path as a literal, untransformed substring
(line 68 interpolates `self.path` with no escaping). -/
theorem do_GET_echoes_raw_path (port : Int) (req : Request) (now : String) :
    strContains (do_GET port req now).body req.path :=
  ⟨htmlPart1 ++ toString port ++ htmlPart2 ++ "Port: <code>" ++ toString port
     ++ "</code>" ++ htmlPart3,
   htmlPart4 ++ req.command ++ htmlPart5 ++ now ++ htmlPart6 ++ toString port
     ++ htmlPart7 ++ toString port ++ htmlPart8 ++ toString port
     ++ htmlPart9 ++ toString port ++ htmlPart10,
   by simp [do_GET, html, String.append_assoc]⟩

/-- C3: for every OPTIONS request, regardless of path, `do_OPTIONS` returns
status 204 with exactly the three CORS headers and an empty body; being a
total function on all requests, it has no reachable error branch. -/
theorem do_OPTIONS_response (req : Request) :
    do_OPTIONS req =
      { status := 204
        headers := [("Access-Control-Allow-Origin", "*"),
                    ("Access-Control-Allow-Methods", "GET, POST, PUT, DELETE, OPTIONS"),
                    ("Access-Control-Allow-Headers", "Content-Type")]
        body := "" } := rfl

/-- C4, counterexample: with the invalid (non-numeric) port argument `abc`
present, the configuration is NOT the default 5173 — line 12 calls `int()`
unconditionally, which raises `ValueError`. -/
theorem PORT_invalid_not_defaulted :
    PORT ["test-server.py", "abc"] ≠ Except.ok 5173 := by
  intro h
  have e : PORT ["test-server.py", "abc"] = Except.error PyError.valueError := rfl
  rw [e] at h
  exact Except.noConfusion h

/-- C4 (amended): for every argument vector whose port argument is present
but non-numeric, configuration evaluation raises an uncaught `ValueError`
instead of substituting the default; the default 5173 applies only when the
argument is absent. -/
theorem PORT_invalid_raises (prog a : String) (rest : List String)
    (h : pyInt a = none) :
    PORT (prog :: a :: rest) = Except.error PyError.valueError := by
  simp [PORT, h]

/-- C4, witness: the amended theorem at the concrete argument `abc`. -/
theorem PORT_invalid_raises_witness :
    pyInt "abc" = none ∧
    PORT ["test-server.py", "abc"] = Except.error PyError.valueError :=
  have h : pyInt "abc" = none := by decide
  ⟨h, PORT_invalid_raises "test-server.py" "abc" [] h⟩

/-- C5: for every argument vector whose first positional argument is
non-numeric, startup ends in the parse error before any socket is bound —
line 12 runs at module import, before the `HTTPServer` construction at
line 101. -/
theorem startServer_invalid_no_bind (prog a : String) (rest : List String)
    (h : pyInt a = none) :
    startServer (prog :: a :: rest) = StartResult.parseError := by
  simp [startServer, PORT, h]

/-- C5, witness: the theorem at the concrete argument `2abc`. -/
theorem startServer_invalid_no_bind_witness :
    pyInt "2abc" = none ∧
    startServer ["test-server.py", "2abc"] = StartResult.parseError :=
  have h : pyInt "2abc" = none := by decide
  ⟨h, startServer_invalid_no_bind "test-server.py" "2abc" [] h⟩

/-- C6: when the port argument is omitted (argument vector of at most the
program name), the configuration is exactly 5173 and the server listens on
5173. -/
theorem PORT_omitted_default (argv : List String) (h : argv.length ≤ 1) :
    PORT argv = Except.ok 5173 ∧ startServer argv = StartResult.listening 5173 := by
  match argv with
  | [] => exact ⟨rfl, rfl⟩
  | [_] => exact ⟨rfl, rfl⟩
  | _ :: _ :: _ => simp [List.length_cons] at h

/-- C6, witness: the theorem at the one-element argument vector. -/
theorem PORT_omitted_default_witness :
    (["test-server.py"] : List String).length ≤ 1 ∧
    (PORT ["test-server.py"] = Except.ok 5173 ∧
     startServer ["test-server.py"] = StartResult.listening 5173) :=
  have h : (["test-server.py"] : List String).length ≤ 1 := by decide
  ⟨h, PORT_omitted_default ["test-server.py"] h⟩

/-- Helper: appending after the fixed three-character method tag is
injective. -/
theorem do_append_inj (m s : String) (h : "do_" ++ m = "do_" ++ s) : m = s := by
  have h2 : 'd' :: 'o' :: '_' :: m.data = 'd' :: 'o' :: '_' :: s.data :=
    congrArg String.data h
  injection h2 with _ h2
  injection h2 with _ h2
  injection h2 with _ h2
  exact String.ext h2

/-- Helper: no method name prefixed with the tag equals the logging method
name. -/
theorem do_append_ne_log (m : String) : "do_" ++ m ≠ "log_message" := by
  intro h
  have h2 : 'd' :: 'o' :: '_' :: m.data =
      'l' :: 'o' :: 'g' :: '_' :: 'm' :: 'e' :: 's' :: 's' :: 'a' :: 'g' :: 'e' :: [] :=
    congrArg String.data h
  injection h2 with h3 _
  exact absurd h3 (by decide)

/-- C7: for every HTTP method other than GET and OPTIONS, the handler class
defines no method named `do_` followed by that method, so the request falls
through to the library default not-implemented response with status 501. -/
theorem unhandled_method_falls_back (port : Int) (req : Request) (now : String)
    (hg : req.command ≠ "GET") (ho : req.command ≠ "OPTIONS") :
    ("do_" ++ req.command) ∉ handlerNames ∧
    dispatch port req now = defaultFallback ∧
    (dispatch port req now).status = 501 := by
  refine ⟨?_, ?_, ?_⟩
  · intro hmem
    simp [handlerNames] at hmem
    rcases hmem with h | h | h
    · exact do_append_ne_log req.command h
    · exact ho (do_append_inj req.command "OPTIONS" (h.trans rfl))
    · exact hg (do_append_inj req.command "GET" (h.trans rfl))
  · simp [dispatch, hg, ho]
  · simp [dispatch, hg, ho, defaultFallback]

/-- C7, witness: the theorem at a concrete POST request. -/
theorem unhandled_method_falls_back_witness :
    ((⟨"/", "POST"⟩ : Request).command ≠ "GET") ∧
    ((⟨"/", "POST"⟩ : Request).command ≠ "OPTIONS") ∧
    (("do_" ++ (⟨"/", "POST"⟩ : Request).command) ∉ handlerNames ∧
     dispatch 5173 ⟨"/", "POST"⟩ "2025-01-01T12:00:00" = defaultFallback ∧
     (dispatch 5173 ⟨"/", "POST"⟩ "2025-01-01T12:00:00").status = 501) :=
  have hg : (⟨"/", "POST"⟩ : Request).command ≠ "GET" := by decide
  have ho : (⟨"/", "POST"⟩ : Request).command ≠ "OPTIONS" := by decide
  ⟨hg, ho, unhandled_method_falls_back 5173 ⟨"/", "POST"⟩ "2025-01-01T12:00:00" hg ho⟩

/-- Helper: newline counting distributes over append. -/
theorem newlineCount_append (a b : String) :
    newlineCount (a ++ b) = newlineCount a + newlineCount b := by
  simp [newlineCount]

/-- C9: for every newline-free timestamp and newline-free formatted message,
the logging output is the timestamp, the separator, the message and a final
newline — exactly one line on standard output. -/
theorem log_message_format (now msg : String)
    (h1 : newlineCount now = 0) (h2 : newlineCount msg = 0) :
    printedLogLine now msg = now ++ (" - " ++ (msg ++ "\n")) ∧
    newlineCount (printedLogLine now msg) = 1 := by
  have e1 : newlineCount " - " = 0 := by decide
  have e2 : newlineCount "\n" = 1 := by decide
  constructor
  · simp [printedLogLine, log_message, String.append_assoc]
  · simp [printedLogLine, log_message, newlineCount_append, h1, h2, e1, e2]

/-- C9, witness: the theorem at a concrete timestamp and a concrete
conventional access-log record. -/
theorem log_message_format_witness :
    newlineCount "2025-01-01T12:00:00.000000" = 0 ∧
    newlineCount "127.0.0.1 - - [01/Jan/2025 12:00:00] \"GET / HTTP/1.1\" 200 -" = 0 ∧
    (printedLogLine "2025-01-01T12:00:00.000000"
        "127.0.0.1 - - [01/Jan/2025 12:00:00] \"GET / HTTP/1.1\" 200 -" =
      "2025-01-01T12:00:00.000000" ++ (" - " ++
        ("127.0.0.1 - - [01/Jan/2025 12:00:00] \"GET / HTTP/1.1\" 200 -" ++ "\n")) ∧
     newlineCount (printedLogLine "2025-01-01T12:00:00.000000"
        "127.0.0.1 - - [01/Jan/2025 12:00:00] \"GET / HTTP/1.1\" 200 -") = 1) :=
  have h1 : newlineCount "2025-01-01T12:00:00.000000" = 0 := by decide
  have h2 : newlineCount "127.0.0.1 - - [01/Jan/2025 12:00:00] \"GET / HTTP/1.1\" 200 -" = 0 := by
    decide
  ⟨h1, h2, log_message_format "2025-01-01T12:00:00.000000"
    "127.0.0.1 - - [01/Jan/2025 12:00:00] \"GET / HTTP/1.1\" 200 -" h1 h2⟩

/-- C10: the OPTIONS response is fully independent of the request — any two
requests, whatever their paths, methods or other data, receive identical
responses from `do_OPTIONS`. -/
theorem do_OPTIONS_request_independent (r₁ r₂ : Request) :
    do_OPTIONS r₁ = do_OPTIONS r₂ := rfl
